import Mathlib

/-!
Shallow embedding of the stoichiometric conversion procedure of the
Aplicativo_quimica repository.

The repository's own code is glue arithmetic around two third-party
library calls: `chempy.balance_stoichiometry` (equation balancing) and
molar-mass lookup (`chempy.Substance.from_formula(...).molar_mass()` in
the HTTP variant, `periodictable.formula(...).mass` in the console
variants).  Those library calls are modelled as explicit function
parameters (`bal`, `mm`, `periodic`); a raised library exception is an
`Except.error` / `Option.none` value.  Machine floats are modelled as
rationals; every Python exception path of the repository's own code
(KeyError on a dict index, TypeError from a `None` coefficient,
ZeroDivisionError) is made explicit, because the HTTP handler wraps its
whole body in `try/except Exception` and returns `{"error": str(e)}`.
-/

/-- The JSON body returned by the `/calcular/` endpoint of `src/main.py`:
either the success dictionary with keys `moles_objetivo`, `masa_objetivo`,
`masas_molares`, `ecuacion_balanceada` (the latter as the two coefficient
dictionaries), or the failure dictionary `{"error": msg}`. -/
inductive Response where
  | ok (moles_objetivo masa_objetivo : ℚ)
      (masas_molares reactivos productos : List (String × ℚ))
  | error (msg : String)
deriving DecidableEq

/-- The pydantic request model `ReactionInput` of `src/main.py`.  Python
dicts are modelled as association lists (first binding wins on lookup). -/
structure ReactionInput where
  reactivos : List (String × ℚ)
  productos : List (String × ℚ)
  masa_dada : ℚ
  compuesto_dado : String
  compuesto_objetivo : String
deriving DecidableEq

/-- Python `d.get(k)` / `d[k]` on a dict modelled as an association list:
the value at the first binding of `k`, if any. -/
def dictGet (l : List (String × ℚ)) (k : String) : Option ℚ :=
  (l.find? (fun p => p.1 == k)).map Prod.snd

/-- Python `set(d.keys())`: the set of keys of a dict. -/
def keysFinset (l : List (String × ℚ)) : Finset String :=
  (l.map Prod.fst).toFinset

/-- The molar-mass dictionary construction loop of `src/main.py`
(`for compuesto in list(reac.keys()) + list(prod.keys()): masas[...] = ...`);
an exception raised by the library lookup aborts the whole handler body. -/
def buildMasas (mm : String → Except String ℚ) :
    List String → Except String (List (String × ℚ))
  | [] => .ok []
  | c :: cs =>
    match mm c with
    | .error e => .error e
    | .ok m =>
      match buildMasas mm cs with
      | .error e => .error e
      | .ok rest => .ok ((c, m) :: rest)

/-- The coefficient lookup `reac.get(x, prod.get(x))` of `src/main.py`:
try the reactant dict, fall back to the product dict, `none` when the
compound is on neither side. -/
def coefGet (reac prod : List (String × ℚ)) (k : String) : Option ℚ :=
  match dictGet reac k with
  | some c => some c
  | none => dictGet prod k

/-- The body of the POST handler `calcular_estequiometria` of
`src/main.py`.  `bal` models `chempy.balance_stoichiometry` applied to
the two key sets; `mm` models `Substance.from_formula(c).molar_mass()`.
The `try/except Exception` wrapper means every raised exception becomes
a `Response.error` carrying the exception message. -/
def calcular_estequiometria
    (bal : Finset String → Finset String →
      Except String (List (String × ℚ) × List (String × ℚ)))
    (mm : String → Except String ℚ) (data : ReactionInput) : Response :=
  match bal (keysFinset data.reactivos) (keysFinset data.productos) with
  | .error e => .error e
  | .ok (reac, prod) =>
    match buildMasas mm (reac.map Prod.fst ++ prod.map Prod.fst) with
    | .error e => .error e
    | .ok masas =>
      match dictGet masas data.compuesto_dado with
      | none => .error ("KeyError: " ++ data.compuesto_dado)
      | some mmDado =>
        if mmDado = 0 then .error "ZeroDivisionError: float division by zero"
        else
          let moles_dado := data.masa_dada / mmDado
          match coefGet reac prod data.compuesto_dado,
              coefGet reac prod data.compuesto_objetivo with
          | some coef_dado, some coef_objetivo =>
            if coef_dado = 0 then .error "ZeroDivisionError: division by zero"
            else
              let moles_objetivo := moles_dado * (coef_objetivo / coef_dado)
              match dictGet masas data.compuesto_objetivo with
              | none => .error ("KeyError: " ++ data.compuesto_objetivo)
              | some mmObjetivo =>
                .ok moles_objetivo (moles_objetivo * mmObjetivo) masas reac prod
          | _, _ => .error "TypeError: unsupported operand type for division"

/-- All numeric values appearing anywhere in a response body. -/
def Response.numbers : Response → List ℚ
  | .ok mo ma ms r p =>
    mo :: ma :: (ms.map Prod.snd ++ r.map Prod.snd ++ p.map Prod.snd)
  | .error _ => []

/-- The `masa_objetivo` field of a successful response. -/
def Response.masaObjetivo : Response → Option ℚ
  | .ok _ ma _ _ _ => some ma
  | .error _ => none

/-- Possible outcomes of one run of the console function
`calculo_estequiometrico` of `src/calculo_estequiometrico.py`: either the
results block is printed, or the function returns early (invalid formula),
or an uncaught exception escapes (division by zero is not handled). -/
inductive ConsoleResult where
  | printed (mm_origen mm_objetivo masa_objetivo : ℚ)
  | earlyReturn
  | crash (msg : String)
deriving DecidableEq

/-- `masa_molar` of `src/calculo_estequiometrico.py`: wraps the
`periodictable.formula(compuesto).mass` lookup (the `periodic` parameter,
where a raised library exception is `none`) in `try/except`, returning
`None` on failure. -/
def masa_molar (periodic : String → Option ℚ) (compuesto : String) : Option ℚ :=
  match periodic compuesto with
  | some m => some m
  | none => none

/-- The computational core of `calculo_estequiometrico` of
`src/calculo_estequiometrico.py` (the explicit-coefficient console
variant), after the `input()` prompts: both molar masses are resolved, the
function returns early when either is `None`, and otherwise the rule-of-three
arithmetic runs and the results block is printed. -/
def calculo_estequiometrico (periodic : String → Option ℚ)
    (compuesto_origen : String) (masa_origen coef_origen : ℚ)
    (compuesto_objetivo : String) (coef_objetivo : ℚ) : ConsoleResult :=
  let mm_origen := masa_molar periodic compuesto_origen
  let mm_objetivo := masa_molar periodic compuesto_objetivo
  match mm_origen, mm_objetivo with
  | some mo, some mt =>
    if mo = 0 then .crash "ZeroDivisionError: float division by zero"
    else if coef_origen = 0 then .crash "ZeroDivisionError: float division by zero"
    else
      let moles_origen := masa_origen / mo
      let moles_objetivo := moles_origen * (coef_objetivo / coef_origen)
      .printed mo mt (moles_objetivo * mt)
  | _, _ => .earlyReturn

/-- Modelled from the spec: the molar-mass resolution performed by the
third-party libraries (`periodictable` / `chempy`), which is not part of
this repository's sources.  Section 4.1 of the spec describes it exactly:
parse the condensed formula into element symbol / atom count pairs, look
each element's atomic mass up in a standard table, and sum count × mass.
`parseUnits` parses one symbol-plus-optional-count unit per step; the fuel
argument bounds the recursion and is instantiated with the formula length,
which suffices because every unit consumes at least one character. -/
def digitCount (digs : List Char) : ℕ :=
  if digs.isEmpty then 1
  else digs.foldl (fun n d => 10 * n + (d.toNat - 48)) 0

/-- One symbol-plus-optional-count unit per step of the condensed-formula
grammar of spec section 4.1. -/
def parseUnits : ℕ → List Char → Option (List (String × ℕ))
  | _, [] => some []
  | 0, _ :: _ => none
  | fuel + 1, c :: cs =>
    if c.isUpper then
      let lows := cs.takeWhile Char.isLower
      let rest1 := cs.dropWhile Char.isLower
      let digs := rest1.takeWhile Char.isDigit
      let rest2 := rest1.dropWhile Char.isDigit
      if digitCount digs = 0 then none
      else
        match parseUnits fuel rest2 with
        | some us => some ((String.mk (c :: lows), digitCount digs) :: us)
        | none => none
    else none

/-- Modelled from the spec: parsing a whole formula string — at least one
unit must be present, otherwise the formula is invalid. -/
def parseFormula (f : String) : Option (List (String × ℕ)) :=
  match parseUnits f.data.length f.data with
  | some [] => none
  | some us => some us
  | none => none

/-- Modelled from the spec: a standard table of atomic masses
(grams/mole, exact rationals standing in for the published values). -/
def atomicMasses : List (String × ℚ) :=
  [("H", 1008/1000), ("C", 12011/1000), ("N", 14007/1000),
   ("O", 15999/1000), ("Na", 22990/1000), ("Cl", 35453/1000),
   ("S", 3206/100), ("Fe", 55845/1000), ("K", 39098/1000),
   ("Ca", 40078/1000)]

/-- Atomic-mass lookup in the standard table. -/
def lookupAtomic (e : String) : Option ℚ :=
  (atomicMasses.find? (fun p => p.1 == e)).map Prod.snd

/-- Sum of count × atomic mass over the parsed units; fails when some
element symbol is not in the table. -/
def sumMasses : List (String × ℕ) → Option ℚ
  | [] => some 0
  | (e, n) :: rest =>
    match lookupAtomic e, sumMasses rest with
    | some m, some s => some (n * m + s)
    | _, _ => none

/-- Modelled from the spec: `resolve_molar_mass(formula)` of section 4.1 —
parse the formula into element counts and sum count × atomic mass;
`none` is the InvalidFormula failure. -/
def resolve_molar_mass (f : String) : Option ℚ :=
  match parseFormula f with
  | none => none
  | some us => sumMasses us

/-- A concrete balancer instance for witnesses: the balanced equation
2 H2 + O2 -> 2 H2O. -/
def balW : Finset String → Finset String →
    Except String (List (String × ℚ) × List (String × ℚ)) :=
  fun _ _ => .ok ([("H2", 2), ("O2", 1)], [("H2O", 2)])

/-- A concrete molar-mass library instance for witnesses (simple exact
values; the handler's arithmetic does not depend on which values the
library returns). -/
def mmW (s : String) : Except String ℚ :=
  match dictGet [("H2", 2), ("O2", 32), ("H2O", 18)] s with
  | some m => .ok m
  | none => .error ("could not parse formula " ++ s)

/-- A boolean contiguous-subsequence check on character lists, used to state
that an error message does or does not mention a given label. -/
def hasSub (pat : List Char) : List Char → Bool
  | [] => pat.isEmpty
  | c :: cs => pat.isPrefixOf (c :: cs) || hasSub pat cs

/-- A concrete `periodictable` library instance for witnesses: only `H2O`
has a known molar mass; any other formula fails to parse. -/
def periodicW : String → Option ℚ :=
  fun s => dictGet [("H2O", 18)] s

theorem dictGet_mem {l : List (String × ℚ)} {k : String} {v : ℚ}
    (h : dictGet l k = some v) : k ∈ l.map Prod.fst := by
  unfold dictGet at h
  rcases ho : l.find? (fun p => p.1 == k) with _ | p
  · rw [ho] at h; simp at h
  · have hp := List.find?_some ho
    have hm := List.mem_of_find?_eq_some ho
    simp only [beq_iff_eq] at hp
    exact hp ▸ List.mem_map_of_mem Prod.fst hm

theorem dictGet_eq_none {l : List (String × ℚ)} {k : String}
    (h : k ∉ l.map Prod.fst) : dictGet l k = none := by
  unfold dictGet
  rw [List.find?_eq_none.2]
  · rfl
  · intro p hp hbeq
    simp only [beq_iff_eq] at hbeq
    exact h (hbeq ▸ List.mem_map_of_mem Prod.fst hp)

theorem buildMasas_keys (mm : String → Except String ℚ) :
    ∀ (l : List String) (ms : List (String × ℚ)),
      buildMasas mm l = .ok ms → ms.map Prod.fst = l := by
  intro l
  induction l with
  | nil => intro ms h; simp only [buildMasas] at h; cases h; rfl
  | cons c cs ih =>
    intro ms h
    simp only [buildMasas] at h
    rcases hc : mm c with e | m <;> rw [hc] at h
    · cases h
    · rcases hr : buildMasas mm cs with e | rest <;> rw [hr] at h
      · cases h
      · cases h
        simp [ih rest hr]

theorem lookupAtomic_pos {e : String} {m : ℚ} (h : lookupAtomic e = some m) :
    0 < m := by
  unfold lookupAtomic at h
  rcases ho : atomicMasses.find? (fun p => p.1 == e) with _ | p <;> rw [ho] at h
  · simp at h
  · simp only [Option.map_some'] at h
    cases h
    have hm := List.mem_of_find?_eq_some ho
    have hall : ∀ q ∈ atomicMasses, (0 : ℚ) < q.2 := by
      intro q hq
      simp only [atomicMasses, List.mem_cons, List.not_mem_nil, or_false] at hq
      rcases hq with rfl | rfl | rfl | rfl | rfl | rfl | rfl | rfl | rfl | rfl <;>
        norm_num
    exact hall p hm

theorem parseUnits_count_pos :
    ∀ (fuel : ℕ) (l : List Char) (us : List (String × ℕ)),
      parseUnits fuel l = some us → ∀ p ∈ us, 0 < p.2 := by
  intro fuel
  induction fuel with
  | zero =>
    intro l us h p hp
    cases l with
    | nil => simp only [parseUnits] at h; cases h; simp at hp
    | cons c cs =>
      simp only [parseUnits] at h
      exact Option.noConfusion h
  | succ n ih =>
    intro l us h p hp
    cases l with
    | nil => simp only [parseUnits] at h; cases h; simp at hp
    | cons c cs =>
      simp only [parseUnits] at h
      split at h
      · split at h
        · exact Option.noConfusion h
        · split at h
          · rename_i hcnt _ us' heq
            cases h
            rcases List.mem_cons.1 hp with hp1 | hp2
            · subst hp1
              exact Nat.pos_of_ne_zero hcnt
            · exact ih _ _ heq p hp2
          · exact Option.noConfusion h
      · exact Option.noConfusion h

theorem parseFormula_some {f : String} {us : List (String × ℕ)}
    (h : parseFormula f = some us) :
    parseUnits f.data.length f.data = some us ∧ us ≠ [] := by
  unfold parseFormula at h
  rcases hp : parseUnits f.data.length f.data with _ | l <;> rw [hp] at h
  · cases h
  · cases l with
    | nil => simp at h
    | cons a l' =>
      injection h with h
      subst h
      exact ⟨rfl, by simp⟩

theorem sumMasses_nonneg :
    ∀ (l : List (String × ℕ)) (s : ℚ), sumMasses l = some s → 0 ≤ s := by
  intro l
  induction l with
  | nil =>
    intro s h
    simp only [sumMasses] at h
    cases h
    exact le_refl 0
  | cons p rest ih =>
    intro s h
    obtain ⟨e, n⟩ := p
    simp only [sumMasses] at h
    rcases h1 : lookupAtomic e with _ | m <;> rw [h1] at h
    · cases h
    · rcases h2 : sumMasses rest with _ | s' <;> rw [h2] at h
      · cases h
      · cases h
        have hm := (lookupAtomic_pos h1).le
        have hs' := ih s' h2
        have hn : (0 : ℚ) ≤ (n : ℚ) := Nat.cast_nonneg n
        have := mul_nonneg hn hm
        linarith

theorem sumMasses_pos {l : List (String × ℕ)} {s : ℚ} (hne : l ≠ [])
    (hcnt : ∀ p ∈ l, 0 < p.2) (h : sumMasses l = some s) : 0 < s := by
  cases l with
  | nil => exact absurd rfl hne
  | cons p rest =>
    obtain ⟨e, n⟩ := p
    simp only [sumMasses] at h
    rcases h1 : lookupAtomic e with _ | m <;> rw [h1] at h
    · cases h
    · rcases h2 : sumMasses rest with _ | s' <;> rw [h2] at h
      · cases h
      · cases h
        have hm := lookupAtomic_pos h1
        have hs' := sumMasses_nonneg rest s' h2
        have hn : 0 < n := hcnt (e, n) (List.mem_cons_self _ _)
        have hnq : (0 : ℚ) < (n : ℚ) := by exact_mod_cast hn
        have := mul_pos hnq hm
        linarith

theorem dictGet_mem_snd {l : List (String × ℚ)} {k : String} {v : ℚ}
    (h : dictGet l k = some v) : v ∈ l.map Prod.snd := by
  unfold dictGet at h
  rcases ho : l.find? (fun p => p.1 == k) with _ | p <;> rw [ho] at h
  · simp at h
  · simp only [Option.map_some'] at h
    cases h
    exact List.mem_map_of_mem Prod.snd (List.mem_of_find?_eq_some ho)

/-- Evaluation of the handler along its success path: when balancing
succeeds, every molar mass resolves, both compounds have coefficients, and
no division hits a zero denominator, the returned response is the success
dictionary computed by the rule-of-three arithmetic. -/
theorem calcular_estequiometria_ok
    (bal : Finset String → Finset String →
      Except String (List (String × ℚ) × List (String × ℚ)))
    (mm : String → Except String ℚ) (d : ReactionInput)
    (R P masas : List (String × ℚ)) (mmK cK cT mmT : ℚ)
    (hbal : bal (keysFinset d.reactivos) (keysFinset d.productos) = .ok (R, P))
    (hmas : buildMasas mm (R.map Prod.fst ++ P.map Prod.fst) = .ok masas)
    (hK : dictGet masas d.compuesto_dado = some mmK) (hK0 : mmK ≠ 0)
    (hcK : coefGet R P d.compuesto_dado = some cK) (hcK0 : cK ≠ 0)
    (hcT : coefGet R P d.compuesto_objetivo = some cT)
    (hT : dictGet masas d.compuesto_objetivo = some mmT) :
    calcular_estequiometria bal mm d =
      .ok (d.masa_dada / mmK * (cT / cK))
        (d.masa_dada / mmK * (cT / cK) * mmT) masas R P := by
  unfold calcular_estequiometria
  rw [hbal]
  simp only [hmas, hK, hcK, hcT, hT]
  rw [if_neg hK0, if_neg hcK0]

/-- C1: for a conversion request with known mass `m`, known compound with
molar mass `mmK` and coefficient `cK`, and target compound with molar mass
`mmT` and coefficient `cT`, the handler computes
`moles_known = m / mmK`, `moles_target = moles_known * (cT / cK)` and
`mass_target = moles_target * mmT`, and the numbers it returns equal
these values. -/
theorem conversion_formulas_correct
    (bal : Finset String → Finset String →
      Except String (List (String × ℚ) × List (String × ℚ)))
    (mm : String → Except String ℚ) (d : ReactionInput)
    (R P masas : List (String × ℚ)) (mmK cK cT mmT : ℚ)
    (hbal : bal (keysFinset d.reactivos) (keysFinset d.productos) = .ok (R, P))
    (hmas : buildMasas mm (R.map Prod.fst ++ P.map Prod.fst) = .ok masas)
    (hK : dictGet masas d.compuesto_dado = some mmK) (hK0 : mmK ≠ 0)
    (hcK : coefGet R P d.compuesto_dado = some cK) (hcK0 : cK ≠ 0)
    (hcT : coefGet R P d.compuesto_objetivo = some cT)
    (hT : dictGet masas d.compuesto_objetivo = some mmT) :
    calcular_estequiometria bal mm d =
      .ok (d.masa_dada / mmK * (cT / cK))
        (d.masa_dada / mmK * (cT / cK) * mmT) masas R P :=
  calcular_estequiometria_ok bal mm d R P masas mmK cK cT mmT
    hbal hmas hK hK0 hcK hcK0 hcT hT

/-- C6: for every request, the endpoint's response is either the success
JSON body (moles_objetivo, masa_objetivo, masas_molares and the
balanced-equation coefficient dictionaries) or an error body; the
`try/except Exception` wrapper lets no failure escape. -/
theorem endpoint_response_shape
    (bal : Finset String → Finset String →
      Except String (List (String × ℚ) × List (String × ℚ)))
    (mm : String → Except String ℚ) (d : ReactionInput) :
    (∃ mo ma ms r p,
        calcular_estequiometria bal mm d = .ok mo ma ms r p) ∨
    (∃ msg, calcular_estequiometria bal mm d = .error msg) := by
  cases h : calcular_estequiometria bal mm d with
  | ok mo ma ms r p => exact .inl ⟨mo, ma, ms, r, p, rfl⟩
  | error msg => exact .inr ⟨msg, rfl⟩

/-- C8: the handler is a pure, deterministic function of the request: two
calls on equal inputs (with the same library behaviour) return equal
responses, and the caller-supplied request data is never mutated — the
embedding of the handler reads the request fields and builds fresh
dictionaries, so it is a plain function of its arguments. -/
theorem convert_deterministic
    (bal : Finset String → Finset String →
      Except String (List (String × ℚ) × List (String × ℚ)))
    (mm : String → Except String ℚ) (d₁ d₂ : ReactionInput)
    (h : d₁ = d₂) :
    calcular_estequiometria bal mm d₁ = calcular_estequiometria bal mm d₂ := by
  rw [h]

/-- C9: the endpoint ignores the caller-supplied coefficient values — two
requests with the same reactant key set, the same product key set and the
same mass and compound fields get identical responses, because the handler
only ever uses the key sets (coefficients are recomputed by balancing). -/
theorem endpoint_ignores_coefficient_values
    (bal : Finset String → Finset String →
      Except String (List (String × ℚ) × List (String × ℚ)))
    (mm : String → Except String ℚ) (d₁ d₂ : ReactionInput)
    (hr : keysFinset d₁.reactivos = keysFinset d₂.reactivos)
    (hp : keysFinset d₁.productos = keysFinset d₂.productos)
    (hm : d₁.masa_dada = d₂.masa_dada)
    (hd : d₁.compuesto_dado = d₂.compuesto_dado)
    (ho : d₁.compuesto_objetivo = d₂.compuesto_objetivo) :
    calcular_estequiometria bal mm d₁ = calcular_estequiometria bal mm d₂ := by
  unfold calcular_estequiometria
  rw [hr, hp, hm, hd, ho]

/-- C10: in the explicit-coefficient console variant, when the molar-mass
lookup fails for the origin or the target formula (`masa_molar` returns
`None`), the function returns early before any arithmetic, producing no
numeric result. -/
theorem invalid_formula_early_return (periodic : String → Option ℚ)
    (compuesto_origen : String) (masa_origen coef_origen : ℚ)
    (compuesto_objetivo : String) (coef_objetivo : ℚ)
    (h : masa_molar periodic compuesto_origen = none ∨
         masa_molar periodic compuesto_objetivo = none) :
    calculo_estequiometrico periodic compuesto_origen masa_origen coef_origen
      compuesto_objetivo coef_objetivo = ConsoleResult.earlyReturn := by
  unfold calculo_estequiometrico
  rcases h with h | h
  · simp only [h]
  · simp only [h]
    cases masa_molar periodic compuesto_origen <;> rfl

/-- C7: for every valid formula (one the resolver accepts),
`resolve_molar_mass` returns a strictly positive value, and a repeated
call returns the same value (it is a pure function of the formula). -/
theorem resolve_molar_mass_pos_stable (F : String) (v : ℚ)
    (h : resolve_molar_mass F = some v) :
    0 < v ∧ resolve_molar_mass F = some v := by
  refine ⟨?_, h⟩
  unfold resolve_molar_mass at h
  rcases hp : parseFormula F with _ | us <;> rw [hp] at h
  · cases h
  · obtain ⟨hpu, hne⟩ := parseFormula_some hp
    exact sumMasses_pos hne (parseUnits_count_pos _ _ _ hpu) h

/-- C2 (amended): when the known or the target compound is absent from both
sides of the balanced equation, the handler fails — the caught Python
exception (a KeyError on the molar-mass dictionary, or a TypeError from
the `None` coefficient) becomes an error response, the missing coefficient
is never defaulted, and no numeric result is returned; the error carries
the raw exception message, not a CompoundNotInEquation label. -/
theorem missing_compound_fails
    (bal : Finset String → Finset String →
      Except String (List (String × ℚ) × List (String × ℚ)))
    (mm : String → Except String ℚ) (d : ReactionInput)
    (R P : List (String × ℚ))
    (hbal : bal (keysFinset d.reactivos) (keysFinset d.productos) = .ok (R, P))
    (hmiss : d.compuesto_dado ∉ (R.map Prod.fst ++ P.map Prod.fst) ∨
             d.compuesto_objetivo ∉ (R.map Prod.fst ++ P.map Prod.fst)) :
    ∃ msg, calcular_estequiometria bal mm d = .error msg := by
  unfold calcular_estequiometria
  rw [hbal]
  rcases hbm : buildMasas mm (R.map Prod.fst ++ P.map Prod.fst) with e | masas <;>
    simp only [hbm]
  · exact ⟨e, rfl⟩
  · have hkeys := buildMasas_keys mm _ _ hbm
    rcases hdado : dictGet masas d.compuesto_dado with _ | mmD <;>
      simp only [hdado]
    · exact ⟨_, rfl⟩
    · have hdmem : d.compuesto_dado ∈ R.map Prod.fst ++ P.map Prod.fst := by
        have hmem := dictGet_mem hdado
        rwa [hkeys] at hmem
      have hobj : d.compuesto_objetivo ∉ R.map Prod.fst ++ P.map Prod.fst := by
        rcases hmiss with hmiss | hmiss
        · exact absurd hdmem hmiss
        · exact hmiss
      have hobjR : dictGet R d.compuesto_objetivo = none :=
        dictGet_eq_none (fun hmem => hobj (List.mem_append_left _ hmem))
      have hobjP : dictGet P d.compuesto_objetivo = none :=
        dictGet_eq_none (fun hmem => hobj (List.mem_append_right _ hmem))
      have hco : coefGet R P d.compuesto_objetivo = none := by
        unfold coefGet
        rw [hobjR]
        exact hobjP
      by_cases hz : mmD = 0
      · rw [if_pos hz]
        exact ⟨_, rfl⟩
      · rw [if_neg hz]
        rcases hcd : coefGet R P d.compuesto_dado with _ | cd <;>
          simp only [hcd, hco]
        · exact ⟨_, rfl⟩
        · exact ⟨_, rfl⟩

/-- C3 (amended): the handler performs no positivity check on the known
mass — for zero or negative `masa_dada` it still returns the numeric
success response computed by the same formulas, instead of failing with
InvalidInput. -/
theorem nonpositive_mass_still_computes
    (bal : Finset String → Finset String →
      Except String (List (String × ℚ) × List (String × ℚ)))
    (mm : String → Except String ℚ) (d : ReactionInput)
    (R P masas : List (String × ℚ)) (mmK cK cT mmT : ℚ)
    (hm : d.masa_dada ≤ 0)
    (hbal : bal (keysFinset d.reactivos) (keysFinset d.productos) = .ok (R, P))
    (hmas : buildMasas mm (R.map Prod.fst ++ P.map Prod.fst) = .ok masas)
    (hK : dictGet masas d.compuesto_dado = some mmK) (hK0 : mmK ≠ 0)
    (hcK : coefGet R P d.compuesto_dado = some cK) (hcK0 : cK ≠ 0)
    (hcT : coefGet R P d.compuesto_objetivo = some cT)
    (hT : dictGet masas d.compuesto_objetivo = some mmT) :
    calcular_estequiometria bal mm d =
      .ok (d.masa_dada / mmK * (cT / cK))
        (d.masa_dada / mmK * (cT / cK) * mmT) masas R P :=
  calcular_estequiometria_ok bal mm d R P masas mmK cK cT mmT
    hbal hmas hK hK0 hcK hcK0 hcT hT

/-- C5 (amended): on a successful conversion the response carries the
moles of the target compound, the mass of the target compound, the
molar-mass dictionary — which contains the molar masses of both the known
and the target compound — and the balanced-equation coefficients; the
moles of the known compound are not part of the response. -/
theorem success_response_fields
    (bal : Finset String → Finset String →
      Except String (List (String × ℚ) × List (String × ℚ)))
    (mm : String → Except String ℚ) (d : ReactionInput)
    (R P masas : List (String × ℚ)) (mmK cK cT mmT : ℚ)
    (hbal : bal (keysFinset d.reactivos) (keysFinset d.productos) = .ok (R, P))
    (hmas : buildMasas mm (R.map Prod.fst ++ P.map Prod.fst) = .ok masas)
    (hK : dictGet masas d.compuesto_dado = some mmK) (hK0 : mmK ≠ 0)
    (hcK : coefGet R P d.compuesto_dado = some cK) (hcK0 : cK ≠ 0)
    (hcT : coefGet R P d.compuesto_objetivo = some cT)
    (hT : dictGet masas d.compuesto_objetivo = some mmT) :
    calcular_estequiometria bal mm d =
      .ok (d.masa_dada / mmK * (cT / cK))
        (d.masa_dada / mmK * (cT / cK) * mmT) masas R P ∧
    mmK ∈ masas.map Prod.snd ∧ mmT ∈ masas.map Prod.snd :=
  ⟨calcular_estequiometria_ok bal mm d R P masas mmK cK cT mmT
      hbal hmas hK hK0 hcK hcK0 hcT hT,
    dictGet_mem_snd hK, dictGet_mem_snd hT⟩

/-- C4: round-trip — for a balanced equation containing compounds A and B
with positive coefficients and positive molar masses, converting a
positive mass of A to B and then converting the resulting target mass
from B back to A returns the original mass exactly (over rationals). -/
theorem conversion_roundtrip
    (bal : Finset String → Finset String →
      Except String (List (String × ℚ) × List (String × ℚ)))
    (mm : String → Except String ℚ) (d : ReactionInput)
    (R P masas : List (String × ℚ)) (a b mA mB : ℚ)
    (hbal : bal (keysFinset d.reactivos) (keysFinset d.productos) = .ok (R, P))
    (hmas : buildMasas mm (R.map Prod.fst ++ P.map Prod.fst) = .ok masas)
    (hA : dictGet masas d.compuesto_dado = some mA)
    (hB : dictGet masas d.compuesto_objetivo = some mB)
    (hcA : coefGet R P d.compuesto_dado = some a)
    (hcB : coefGet R P d.compuesto_objetivo = some b)
    (hmA : 0 < mA) (hmB : 0 < mB) (ha : 0 < a) (hb : 0 < b)
    (hm : 0 < d.masa_dada) :
    Response.masaObjetivo (calcular_estequiometria bal mm d) =
      some (d.masa_dada / mA * (b / a) * mB) ∧
    Response.masaObjetivo (calcular_estequiometria bal mm
        { reactivos := d.reactivos, productos := d.productos,
          masa_dada := d.masa_dada / mA * (b / a) * mB,
          compuesto_dado := d.compuesto_objetivo,
          compuesto_objetivo := d.compuesto_dado }) =
      some d.masa_dada := by
  constructor
  · rw [calcular_estequiometria_ok bal mm d R P masas mA a b mB
      hbal hmas hA hmA.ne' hcA ha.ne' hcB hB]
    rfl
  · rw [calcular_estequiometria_ok bal mm
      { reactivos := d.reactivos, productos := d.productos,
        masa_dada := d.masa_dada / mA * (b / a) * mB,
        compuesto_dado := d.compuesto_objetivo,
        compuesto_objetivo := d.compuesto_dado }
      R P masas mB b a mA hbal hmas hB hmB.ne' hcB hb.ne' hcA hA]
    simp only [Response.masaObjetivo, Option.some_inj]
    field_simp
    ring

theorem sumMasses_cons_ok {e : String} {n : ℕ} {rest : List (String × ℕ)}
    {m s : ℚ} (h1 : lookupAtomic e = some m) (h2 : sumMasses rest = some s) :
    sumMasses ((e, n) :: rest) = some (n * m + s) := by
  simp [sumMasses, h1, h2]

/-- C1 witness: 4 g of H2 converted to O2 in 2 H2 + O2 -> 2 H2O. -/
theorem conversion_formulas_correct_witness :
    calcular_estequiometria balW mmW
      { reactivos := [("H2", 1), ("O2", 1)], productos := [("H2O", 7)],
        masa_dada := 4, compuesto_dado := "H2", compuesto_objetivo := "O2" } =
      Response.ok ((4 : ℚ) / 2 * (1 / 2)) ((4 : ℚ) / 2 * (1 / 2) * 32)
        [("H2", 2), ("O2", 32), ("H2O", 18)]
        [("H2", 2), ("O2", 1)] [("H2O", 2)] :=
  conversion_formulas_correct balW mmW
    { reactivos := [("H2", 1), ("O2", 1)], productos := [("H2O", 7)],
      masa_dada := 4, compuesto_dado := "H2", compuesto_objetivo := "O2" }
    [("H2", 2), ("O2", 1)] [("H2O", 2)]
    [("H2", 2), ("O2", 32), ("H2O", 18)] 2 2 1 32
    rfl rfl rfl (by norm_num) rfl (by norm_num) rfl rfl

/-- C2 counterexample: with the known compound CO2 absent from the
balanced equation, the endpoint returns the raw KeyError message, which
does not mention any CompoundNotInEquation label. -/
theorem missing_compound_error_unlabeled :
    calcular_estequiometria balW mmW
      { reactivos := [("H2", 1), ("O2", 1)], productos := [("H2O", 7)],
        masa_dada := 4, compuesto_dado := "CO2", compuesto_objetivo := "H2O" } =
      Response.error ("KeyError: " ++ "CO2") ∧
    hasSub "CompoundNotInEquation".data ("KeyError: " ++ "CO2").data = false := by
  constructor
  · rfl
  · decide

/-- C2 witness: with the target compound CO2 absent from the balanced
equation, the endpoint fails with an error response. -/
theorem missing_compound_fails_witness :
    ∃ msg, calcular_estequiometria balW mmW
      { reactivos := [("H2", 1), ("O2", 1)], productos := [("H2O", 7)],
        masa_dada := 4, compuesto_dado := "H2", compuesto_objetivo := "CO2" } =
      Response.error msg :=
  missing_compound_fails balW mmW
    { reactivos := [("H2", 1), ("O2", 1)], productos := [("H2O", 7)],
      masa_dada := 4, compuesto_dado := "H2", compuesto_objetivo := "CO2" }
    [("H2", 2), ("O2", 1)] [("H2O", 2)] rfl (.inr (by decide))

/-- C3 counterexample: with a negative known mass (-4 g of H2) the endpoint
does not fail with InvalidInput — it returns a numeric success response
(-2 mol, -36 g of H2O). -/
theorem negative_mass_returns_result :
    calcular_estequiometria balW mmW
      { reactivos := [("H2", 1), ("O2", 1)], productos := [("H2O", 7)],
        masa_dada := -4, compuesto_dado := "H2", compuesto_objetivo := "H2O" } =
      Response.ok (-2) (-36) [("H2", 2), ("O2", 32), ("H2O", 18)]
        [("H2", 2), ("O2", 1)] [("H2O", 2)] := by
  rw [calcular_estequiometria_ok balW mmW
    { reactivos := [("H2", 1), ("O2", 1)], productos := [("H2O", 7)],
      masa_dada := -4, compuesto_dado := "H2", compuesto_objetivo := "H2O" }
    [("H2", 2), ("O2", 1)] [("H2O", 2)]
    [("H2", 2), ("O2", 32), ("H2O", 18)] 2 2 2 18
    rfl rfl rfl (by norm_num) rfl (by norm_num) rfl rfl]
  norm_num

/-- C3 witness (amended claim): with a zero known mass the handler still
returns the numeric response given by the formulas. -/
theorem nonpositive_mass_still_computes_witness :
    calcular_estequiometria balW mmW
      { reactivos := [("H2", 1), ("O2", 1)], productos := [("H2O", 7)],
        masa_dada := 0, compuesto_dado := "H2", compuesto_objetivo := "H2O" } =
      Response.ok ((0 : ℚ) / 2 * (2 / 2)) ((0 : ℚ) / 2 * (2 / 2) * 18)
        [("H2", 2), ("O2", 32), ("H2O", 18)]
        [("H2", 2), ("O2", 1)] [("H2O", 2)] :=
  nonpositive_mass_still_computes balW mmW
    { reactivos := [("H2", 1), ("O2", 1)], productos := [("H2O", 7)],
      masa_dada := 0, compuesto_dado := "H2", compuesto_objetivo := "H2O" }
    [("H2", 2), ("O2", 1)] [("H2O", 2)]
    [("H2", 2), ("O2", 32), ("H2O", 18)] 2 2 2 18
    (by norm_num) rfl rfl rfl (by norm_num) rfl (by norm_num) rfl rfl

/-- C4 witness: 4 g of H2 -> 32 g of O2, and 32 g of O2 -> 4 g of H2. -/
theorem conversion_roundtrip_witness :
    Response.masaObjetivo (calcular_estequiometria balW mmW
      { reactivos := [("H2", 1), ("O2", 1)], productos := [("H2O", 7)],
        masa_dada := 4, compuesto_dado := "H2", compuesto_objetivo := "O2" }) =
      some ((4 : ℚ) / 2 * (1 / 2) * 32) ∧
    Response.masaObjetivo (calcular_estequiometria balW mmW
      { reactivos := [("H2", 1), ("O2", 1)], productos := [("H2O", 7)],
        masa_dada := (4 : ℚ) / 2 * (1 / 2) * 32,
        compuesto_dado := "O2", compuesto_objetivo := "H2" }) =
      some 4 :=
  conversion_roundtrip balW mmW
    { reactivos := [("H2", 1), ("O2", 1)], productos := [("H2O", 7)],
      masa_dada := 4, compuesto_dado := "H2", compuesto_objetivo := "O2" }
    [("H2", 2), ("O2", 1)] [("H2O", 2)]
    [("H2", 2), ("O2", 32), ("H2O", 18)] 2 1 2 32
    rfl rfl rfl rfl rfl rfl
    (by norm_num) (by norm_num) (by norm_num) (by norm_num) (by norm_num)

/-- C5 counterexample: for 10 g of H2 converted to O2 the known compound's
moles (10 / 2 = 5) do not appear anywhere in the returned response, so the
result does not contain the moles of the known compound. -/
theorem moles_known_not_returned :
    calcular_estequiometria balW mmW
      { reactivos := [("H2", 1), ("O2", 1)], productos := [("H2O", 7)],
        masa_dada := 10, compuesto_dado := "H2", compuesto_objetivo := "O2" } =
      Response.ok (5 / 2) 80 [("H2", 2), ("O2", 32), ("H2O", 18)]
        [("H2", 2), ("O2", 1)] [("H2O", 2)] ∧
    (10 : ℚ) / 2 ∉ Response.numbers (calcular_estequiometria balW mmW
      { reactivos := [("H2", 1), ("O2", 1)], productos := [("H2O", 7)],
        masa_dada := 10, compuesto_dado := "H2", compuesto_objetivo := "O2" }) := by
  have h := calcular_estequiometria_ok balW mmW
    { reactivos := [("H2", 1), ("O2", 1)], productos := [("H2O", 7)],
      masa_dada := 10, compuesto_dado := "H2", compuesto_objetivo := "O2" }
    [("H2", 2), ("O2", 1)] [("H2O", 2)]
    [("H2", 2), ("O2", 32), ("H2O", 18)] 2 2 1 32
    rfl rfl rfl (by norm_num) rfl (by norm_num) rfl rfl
  constructor
  · rw [h]
    norm_num
  · rw [h]
    norm_num [Response.numbers]

/-- C5 witness (amended claim): on success the response carries the target
moles, the target mass, the molar-mass dictionary containing both
compounds' molar masses, and the coefficient dictionaries. -/
theorem success_response_fields_witness :
    calcular_estequiometria balW mmW
      { reactivos := [("H2", 1), ("O2", 1)], productos := [("H2O", 7)],
        masa_dada := 6, compuesto_dado := "H2", compuesto_objetivo := "O2" } =
      Response.ok ((6 : ℚ) / 2 * (1 / 2)) ((6 : ℚ) / 2 * (1 / 2) * 32)
        [("H2", 2), ("O2", 32), ("H2O", 18)]
        [("H2", 2), ("O2", 1)] [("H2O", 2)] ∧
    (2 : ℚ) ∈ ([("H2", 2), ("O2", 32), ("H2O", 18)] :
        List (String × ℚ)).map Prod.snd ∧
    (32 : ℚ) ∈ ([("H2", 2), ("O2", 32), ("H2O", 18)] :
        List (String × ℚ)).map Prod.snd :=
  success_response_fields balW mmW
    { reactivos := [("H2", 1), ("O2", 1)], productos := [("H2O", 7)],
      masa_dada := 6, compuesto_dado := "H2", compuesto_objetivo := "O2" }
    [("H2", 2), ("O2", 1)] [("H2O", 2)]
    [("H2", 2), ("O2", 32), ("H2O", 18)] 2 2 1 32
    rfl rfl rfl (by norm_num) rfl (by norm_num) rfl rfl

/-- C7 witness: H2O resolves to 2 × 1.008 + 15.999 = 18.015 g/mol,
positive and stable. -/
theorem resolve_molar_mass_pos_stable_witness :
    0 < (3603 / 200 : ℚ) ∧ resolve_molar_mass "H2O" = some (3603 / 200) :=
  resolve_molar_mass_pos_stable "H2O" (3603 / 200) (by
    have hH : lookupAtomic "H" = some (1008 / 1000 : ℚ) := by
      simp [lookupAtomic, atomicMasses]
    have hO : lookupAtomic "O" = some (15999 / 1000 : ℚ) := by
      simp [lookupAtomic, atomicMasses]
    have h1 : sumMasses [("O", 1)] =
        some ((1 : ℕ) * (15999 / 1000 : ℚ) + 0) := sumMasses_cons_ok hO rfl
    have h2 : sumMasses [("H", 2), ("O", 1)] =
        some ((2 : ℕ) * (1008 / 1000 : ℚ) +
          ((1 : ℕ) * (15999 / 1000 : ℚ) + 0)) := sumMasses_cons_ok hH h1
    unfold resolve_molar_mass
    rw [(by decide : parseFormula "H2O" = some [("H", 2), ("O", 1)])]
    show sumMasses [("H", 2), ("O", 1)] = some (3603 / 200 : ℚ)
    rw [h2]
    norm_num)

/-- C8 witness: two syntactically different but equal requests (mass 4
versus mass 8/2) get equal responses. -/
theorem convert_deterministic_witness :
    calcular_estequiometria balW mmW
      { reactivos := [("H2", 1), ("O2", 1)], productos := [("H2O", 7)],
        masa_dada := 4, compuesto_dado := "H2", compuesto_objetivo := "O2" } =
    calcular_estequiometria balW mmW
      { reactivos := [("H2", 1), ("O2", 1)], productos := [("H2O", 7)],
        masa_dada := 8 / 2, compuesto_dado := "H2", compuesto_objetivo := "O2" } :=
  convert_deterministic balW mmW
    { reactivos := [("H2", 1), ("O2", 1)], productos := [("H2O", 7)],
      masa_dada := 4, compuesto_dado := "H2", compuesto_objetivo := "O2" }
    { reactivos := [("H2", 1), ("O2", 1)], productos := [("H2O", 7)],
      masa_dada := 8 / 2, compuesto_dado := "H2", compuesto_objetivo := "O2" }
    (by norm_num)

/-- C9 witness: two requests with the same formula keys but different
coefficient values (1,3,7 versus 2,1,2) get identical responses. -/
theorem endpoint_ignores_coefficient_values_witness :
    calcular_estequiometria balW mmW
      { reactivos := [("H2", 1), ("O2", 3)], productos := [("H2O", 7)],
        masa_dada := 4, compuesto_dado := "H2", compuesto_objetivo := "O2" } =
    calcular_estequiometria balW mmW
      { reactivos := [("H2", 2), ("O2", 1)], productos := [("H2O", 2)],
        masa_dada := 4, compuesto_dado := "H2", compuesto_objetivo := "O2" } :=
  endpoint_ignores_coefficient_values balW mmW
    { reactivos := [("H2", 1), ("O2", 3)], productos := [("H2O", 7)],
      masa_dada := 4, compuesto_dado := "H2", compuesto_objetivo := "O2" }
    { reactivos := [("H2", 2), ("O2", 1)], productos := [("H2O", 2)],
      masa_dada := 4, compuesto_dado := "H2", compuesto_objetivo := "O2" }
    rfl rfl rfl rfl rfl

/-- C10 witness: the formula Xx has no molar mass in the library, so the
console variant returns early with no numeric output. -/
theorem invalid_formula_early_return_witness :
    calculo_estequiometrico periodicW "Xx" 5 1 "H2O" 2 =
      ConsoleResult.earlyReturn :=
  invalid_formula_early_return periodicW "Xx" 5 1 "H2O" 2 (.inl rfl)
